import Mathlib

/-!
Verification development for the improver-mcp analysis & insight pipeline.

The TypeScript source is shallowly embedded: pure functions from
`src/analysis/engine.ts` and `src/analysis/insights.ts` become Lean
functions over `String` / `List` / `ℚ`; the SQLite-backed
`StorageManager` becomes an explicit state-passing model.  JavaScript
numbers are modelled by `ℚ` (with the one IEEE artefact the code
actually hits — division by zero producing +Infinity — modelled
explicitly where it occurs).  JS `String.prototype.length` is modelled
as code-point count (all inputs exercised here are within the BMP,
where the two agree).
-/

/-! ## JavaScript string primitives -/

/-- The character class `\s` of ECMAScript regular expressions
(WhiteSpace ∪ LineTerminator). -/
def jsIsSpace (c : Char) : Bool :=
  let n := c.toNat
  n == 0x9 || n == 0xA || n == 0xB || n == 0xC || n == 0xD || n == 0x20 ||
  n == 0xA0 || n == 0x1680 || (0x2000 ≤ n && n ≤ 0x200A) ||
  n == 0x2028 || n == 0x2029 || n == 0x202F || n == 0x205F ||
  n == 0x3000 || n == 0xFEFF

/-- Helper for `jsSplitOnRuns`: `cur` is the piece built so far
(reversed), `inSep` records whether the previous character belonged to
the separator run currently being consumed. -/
def splitRunsAux (p : Char → Bool) (cur : List Char) (inSep : Bool) :
    List Char → List (List Char)
  | [] => [cur.reverse]
  | c :: rest =>
    if p c then
      if inSep then splitRunsAux p cur true rest
      else cur.reverse :: splitRunsAux p [] true rest
    else splitRunsAux p (c :: cur) false rest

/-- JS `s.split(re)` where `re` matches maximal nonempty runs of
characters satisfying `p` (e.g. `/\s+/`, `/[.!?]+/`): pieces between
runs are kept, including empty leading/trailing pieces; `"".split`
yields `[""]`. -/
def jsSplitOnRuns (p : Char → Bool) (s : List Char) : List (List Char) :=
  splitRunsAux p [] false s

/-- Predicate `hayStarts needle hay`: does `hay` start with `needle`? -/
def hayStarts : List Char → List Char → Bool
  | [], _ => true
  | _ :: _, [] => false
  | a :: as, b :: bs => a == b && hayStarts as bs

/-- JS `hay.includes(needle)` over character lists. -/
def containsSub (needle : List Char) : List Char → Bool
  | [] => needle.isEmpty
  | c :: rest => hayStarts needle (c :: rest) || containsSub needle rest

/-- JS `hay.includes(needle)` over strings. -/
def jsIncludes (hay needle : String) : Bool :=
  containsSub needle.data hay.data

/-- JS `s.toLowerCase()` restricted to ASCII (sufficient for the
engine's ASCII keyword lists). `Char.toLower` lower-cases exactly
`A`–`Z`. -/
def jsLower (s : String) : String :=
  ⟨s.data.map Char.toLower⟩

/-- Count the maximal runs of characters satisfying `p` whose length is
at least `k` — the length of `(s.match(/[c]{k,}/g) || [])` for a greedy
global regex over the class `p`. `run` is the length of the current
in-progress run. -/
def countRunsAux (p : Char → Bool) (k : ℕ) (run : ℕ) : List Char → ℕ
  | [] => if k ≤ run then 1 else 0
  | c :: rest =>
    if p c then countRunsAux p k (run + 1) rest
    else (if k ≤ run then 1 else 0) + countRunsAux p k 0 rest

/-- Length of `(s.match(regex of k-or-more chars of class p)/g || [])`. -/
def countRuns (p : Char → Bool) (k : ℕ) (s : String) : ℕ :=
  countRunsAux p k 0 s.data

/-! ## Analysis engine (`src/analysis/engine.ts`) -/

inductive Complexity
  | simple
  | moderate
  | complex
deriving DecidableEq, Repr

/-- Numeric rank of a complexity tier: simple < moderate < complex. -/
def Complexity.rank : Complexity → ℕ
  | .simple => 0
  | .moderate => 1
  | .complex => 2

inductive IssueSeverity
  | low
  | medium
  | high
deriving DecidableEq, Repr

inductive IssueType
  | missing_context
  | too_broad
  | ambiguity
  | bias
deriving DecidableEq, Repr

structure Issue where
  type_ : IssueType
  severity : IssueSeverity
deriving DecidableEq, Repr

structure PromptStructure where
  hasContext : Bool
  hasExamples : Bool
  hasConstraints : Bool
  hasExpectedOutput : Bool
  clarityScore : ℚ
deriving DecidableEq, Repr

structure Analysis where
  qualityScore : ℚ
  complexity : Complexity
  structure_ : PromptStructure
  issues : List Issue
  suggestedTechnique : String
deriving DecidableEq, Repr

/-- Keyword list of `detectContext`. -/
def contextIndicators : List String :=
  ["context", "background", "situation", "scenario", "given that",
   "assuming", "consider", "in the context of", "for this project",
   "working on", "building", "creating"]

/-- Keyword list of `detectExamples`. -/
def exampleIndicators : List String :=
  ["example", "for instance", "such as", "like this", "here\x27s an example",
   "e.g.", "for example", "including", "sample", "demo"]

/-- Keyword list of `detectConstraints`. -/
def constraintIndicators : List String :=
  ["must", "should", "cannot", "don\x27t", "avoid", "only", "exactly",
   "within", "limit", "constraint", "requirement", "ensure", "make sure"]

/-- Keyword list of `detectExpectedOutput`. -/
def outputIndicators : List String :=
  ["output", "result", "response", "format", "structure", "return",
   "provide", "give me", "i want", "i need", "show me", "list",
   "explain", "describe", "write", "create", "generate"]

/-- Keyword list of `detectAmbiguity`. -/
def ambiguousWords : List String :=
  ["something", "anything", "stuff", "things", "some", "any",
   "maybe", "perhaps", "might", "could be", "sort of", "kind of"]

/-- Keyword list of `detectPotentialBias`. -/
def biasIndicators : List String :=
  ["obviously", "clearly", "everyone knows", "it\x27s common sense",
   "normal people", "typical", "standard"]

/-- Keyword list of `detectTechnicalContent`. -/
def technicalIndicators : List String :=
  ["code", "function", "algorithm", "api", "database", "sql",
   "programming", "development", "technical", "implementation",
   "architecture", "design pattern", "framework", "library"]

/-- Shared shape of every keyword detector in the engine:
lower-case the prompt and test substring membership of any keyword. -/
def keywordHit (kws : List String) (prompt : String) : Bool :=
  kws.any (fun kw => jsIncludes (jsLower prompt) kw)

def detectContext (prompt : String) : Bool := keywordHit contextIndicators prompt

def detectExamples (prompt : String) : Bool := keywordHit exampleIndicators prompt

def detectConstraints (prompt : String) : Bool := keywordHit constraintIndicators prompt

def detectExpectedOutput (prompt : String) : Bool := keywordHit outputIndicators prompt

def detectAmbiguity (prompt : String) : Bool := keywordHit ambiguousWords prompt

def detectPotentialBias (prompt : String) : Bool := keywordHit biasIndicators prompt

def detectTechnicalContent (prompt : String) : Bool := keywordHit technicalIndicators prompt

/-- Source expression `prompt.split(/\s+/)` — the `words` array of `analyzeStructure` and
`determineComplexity`. -/
def wordsJS (prompt : String) : List (List Char) :=
  jsSplitOnRuns jsIsSpace prompt.data

/-- Sentence-terminating punctuation class `[.!?]`. -/
def isSentencePunct (c : Char) : Bool :=
  c == '.' || c == '!' || c == '?'

/-- Source expression `prompt.split(/[.!?]+/).filter(s => s.trim().length > 0)`. -/
def sentencesJS (prompt : String) : List (List Char) :=
  (jsSplitOnRuns isSentencePunct prompt.data).filter
    (fun frag => frag.any (fun c => !(jsIsSpace c)))

/-- JS `Math.max(0, Math.min(10, q))`, written with explicit
comparisons so the kernel can evaluate it. -/
def clamp0to10 (q : ℚ) : ℚ :=
  if q < 0 then 0 else if 10 < q then 10 else q

/-- The comparison `words.length / sentences.length > 30` under IEEE
semantics: when `s = 0`, JS division yields `+Infinity` for `w > 0`
(so the comparison is true) and `NaN` for `w = 0` (comparison false);
otherwise it is exact rational comparison. -/
def avgGtThirty (w s : ℕ) : Bool :=
  if s = 0 then decide (w ≠ 0) else decide ((w : ℚ) / (s : ℚ) > 30)

/-- Source function `calculateClarityScore` from `engine.ts`. -/
def calculateClarityScore (prompt : String) (words sentences : List (List Char)) : ℚ :=
  let score : ℚ := 10
  let score := if words.length < 10 then score - 2 else score
  let score := if words.length > 500 then score - 1 else score
  let score := if avgGtThirty words.length sentences.length then score - 1 else score
  let score :=
    if jsIncludes prompt "\n" || jsIncludes prompt "1." || jsIncludes prompt "-" then
      score + 1
    else score
  let excessivePunctuation := countRuns (fun c => c == '!' || c == '?') 2 prompt
  let excessiveCaps := countRuns (fun c => 65 ≤ c.toNat && c.toNat ≤ 90) 5 prompt
  let score := score - ((excessivePunctuation : ℚ) + (excessiveCaps : ℚ)) * (1 / 2)
  clamp0to10 score

/-- Source function `analyzeStructure` from `engine.ts`. -/
def analyzeStructure (prompt : String) : PromptStructure :=
  { hasContext := detectContext prompt
    hasExamples := detectExamples prompt
    hasConstraints := detectConstraints prompt
    hasExpectedOutput := detectExpectedOutput prompt
    clarityScore := calculateClarityScore prompt (wordsJS prompt) (sentencesJS prompt) }

/-- Source function `detectIssues` from `engine.ts`; JS `prompt.length` modelled as
code-point count. -/
def detectIssues (prompt : String) (st : PromptStructure) : List Issue :=
  (if !st.hasContext && prompt.length > 100 then
     [{ type_ := .missing_context, severity := .medium }] else []) ++
  (if prompt.length < 20 then
     [{ type_ := .too_broad, severity := .high }] else []) ++
  (if detectAmbiguity prompt then
     [{ type_ := .ambiguity, severity := .medium }] else []) ++
  (if detectPotentialBias prompt then
     [{ type_ := .bias, severity := .low }] else [])

/-- The multi-request connective check of `determineComplexity`:
`prompt.includes(' and ') || prompt.includes(', ') || prompt.includes('\n')`. -/
def connectiveCheck (prompt : String) : Bool :=
  jsIncludes prompt " and " || jsIncludes prompt ", " || jsIncludes prompt "\n"

/-- The integer accumulator of `determineComplexity`, factored over its
inputs: word count, the three structural booleans it consults, and the
results of the connective and technical-content checks. -/
def complexityScoreParts (words : ℕ) (ctx ex con conn tech : Bool) : ℕ :=
  (if 100 < words then 1 else 0) + (if 200 < words then 1 else 0) +
  (if ctx then 1 else 0) + (if ex then 1 else 0) + (if con then 1 else 0) +
  (if conn then 1 else 0) + (if tech then 1 else 0)

/-- The final thresholding of `determineComplexity`:
score ≤ 2 → simple, ≤ 4 → moderate, else complex. -/
def tierOfScore (s : ℕ) : Complexity :=
  if s ≤ 2 then .simple else if s ≤ 4 then .moderate else .complex

/-- Source function `determineComplexity` from `engine.ts`. -/
def determineComplexity (prompt : String) (st : PromptStructure) : Complexity :=
  tierOfScore (complexityScoreParts (wordsJS prompt).length
    st.hasContext st.hasExamples st.hasConstraints
    (connectiveCheck prompt) (detectTechnicalContent prompt))

/-- Source function `detectMultiStep` from `engine.ts`. -/
def detectMultiStep (st : PromptStructure) : Bool :=
  st.hasConstraints && st.hasExpectedOutput

/-- Source function `selectTechnique` from `engine.ts`. -/
def selectTechnique (complexity : Complexity) (st : PromptStructure) : String :=
  match complexity with
  | .simple => if st.hasExpectedOutput then "Direct Question" else "Zero-Shot"
  | .moderate =>
    if st.hasExamples then "Few-Shot"
    else if st.hasContext then "Role-Based"
    else "Chain of Thought"
  | .complex =>
    if st.hasConstraints && st.hasContext then "ReAct"
    else if detectMultiStep st then "Multi-Step Reasoning"
    else "Tree of Thoughts"

/-- JS `Math.round` on a non-NaN finite value: round half toward
positive infinity, `Math.round(x) = ⌊x + 0.5⌋`.  The floor of a
rational in lowest terms is the floor-division of its numerator by its
(positive) denominator, written with `Int.fdiv` so the kernel can
evaluate it. -/
def jsRound (q : ℚ) : ℤ :=
  let r := q + 1 / 2
  Int.fdiv r.num (r.den : ℤ)

/-- Score deduction per issue severity in `calculateQualityScore`. -/
def issuePenalty : IssueSeverity → ℚ
  | .high => 2
  | .medium => 1
  | .low => 1 / 2

/-- Source function `calculateQualityScore` from `engine.ts`:
`Math.max(0, Math.min(10, Math.round(score * 10) / 10))`. -/
def calculateQualityScore (st : PromptStructure) (issues : List Issue) : ℚ :=
  let score : ℚ := 10
  let score := if !st.hasContext then score - 3 / 2 else score
  let score := if !st.hasExamples then score - 1 / 2 else score
  let score := if !st.hasConstraints then score - 1 / 2 else score
  let score := if !st.hasExpectedOutput then score - 1 else score
  let score := issues.foldl (fun acc i => acc - issuePenalty i.severity) score
  let score := score + st.clarityScore / 10 * 2
  clamp0to10 ((jsRound (score * 10) : ℚ) / 10)

/-- Source function `analyzePrompt` from `engine.ts` (the externally invoked
`analyze`); the rationale string is not modelled, no claim consults
it. -/
def analyzePrompt (prompt : String) : Analysis :=
  let structure_ := analyzeStructure prompt
  let issues := detectIssues prompt structure_
  let complexity := determineComplexity prompt structure_
  let suggestedTechnique := selectTechnique complexity structure_
  let qualityScore := calculateQualityScore structure_ issues
  { qualityScore, complexity, structure_, issues, suggestedTechnique }

/-- Modelled from the spec (§4.1), for refinement comparison with the
source's `avgGtThirty`: "if zero sentences result, treat
average-tokens-per-sentence as token count (avoid division by zero)". -/
def specAvgGtThirty (w s : ℕ) : Bool :=
  if s = 0 then decide ((w : ℚ) > 30) else decide ((w : ℚ) / (s : ℚ) > 30)

/-- Modelled from the spec (§4.1), for refinement comparison with
`calculateClarityScore`: identical except that the
average-tokens-per-sentence comparison uses the spec's zero-sentence
guard. -/
def calculateClarityScoreSpecGuard (prompt : String)
    (words sentences : List (List Char)) : ℚ :=
  let score : ℚ := 10
  let score := if words.length < 10 then score - 2 else score
  let score := if words.length > 500 then score - 1 else score
  let score := if specAvgGtThirty words.length sentences.length then score - 1 else score
  let score :=
    if jsIncludes prompt "\n" || jsIncludes prompt "1." || jsIncludes prompt "-" then
      score + 1
    else score
  let excessivePunctuation := countRuns (fun c => c == '!' || c == '?') 2 prompt
  let excessiveCaps := countRuns (fun c => 65 ≤ c.toNat && c.toNat ≤ 90) 5 prompt
  let score := score - ((excessivePunctuation : ℚ) + (excessiveCaps : ℚ)) * (1 / 2)
  clamp0to10 score

/-- The technique case table exactly as the spec (§4.4) words it,
for refinement comparison with `selectTechnique`. -/
def specTechniqueTable (c : Complexity)
    (hasExamples hasContext hasConstraints hasExpectedOutput : Bool) : String :=
  match c with
  | .simple => if hasExpectedOutput then "Direct Question" else "Zero-Shot"
  | .moderate =>
    if hasExamples then "Few-Shot"
    else if hasContext then "Role-Based"
    else "Chain of Thought"
  | .complex =>
    if hasConstraints && hasContext then "ReAct"
    else if hasConstraints && hasExpectedOutput then "Multi-Step Reasoning"
    else "Tree of Thoughts"

/-! ## Insight miner (`src/analysis/insights.ts`) -/

/-- The fields of `PromptData` consulted by the quality-trend detector. -/
structure PromptQ where
  qualityScore : Option ℚ
deriving DecidableEq, Repr

inductive InsightType
  | quality_decline
  | quality_improvement
deriving DecidableEq, Repr

inductive InsightSeverity
  | info
  | suggestion
  | warning
deriving DecidableEq, Repr

/-- The parts of an emitted `InsightData` the quality-trend claims talk
about: its type, severity and the two numeric evidence scores. -/
structure Insight where
  type_ : InsightType
  severity : InsightSeverity
  recentScore : ℚ
  olderScore : ℚ
deriving DecidableEq, Repr

/-- Source function `calculateAverageQuality` from `insights.ts`: mean of the defined
quality scores, `0` for an empty cohort. -/
def calculateAverageQuality (prompts : List PromptQ) : ℚ :=
  let qualityScores := prompts.filterMap (fun p => p.qualityScore)
  if qualityScores.length = 0 then 0
  else qualityScores.sum / (qualityScores.length : ℚ)

/-- Source function `analyzeQualityTrends` from `insights.ts`.  `prompts` is the
most-recent-first window handed to the miner; JS `slice(0, 50)` is
`take 50` and `slice(50, 100)` is `drop 50 |>.take 50`. -/
def analyzeQualityTrends (prompts : List PromptQ) : List Insight :=
  let qualityPrompts := prompts.filter (fun p => p.qualityScore.isSome)
  if qualityPrompts.length < 10 then []
  else
    let recentScore := calculateAverageQuality (qualityPrompts.take 50)
    let olderScore := calculateAverageQuality ((qualityPrompts.drop 50).take 50)
    if recentScore < olderScore - 1 / 2 then
      [{ type_ := .quality_decline, severity := .warning, recentScore, olderScore }]
    else if recentScore > olderScore + 1 / 2 then
      [{ type_ := .quality_improvement, severity := .info, recentScore, olderScore }]
    else []

/-- Does the detector output contain an insight of the given type? -/
def emitsType (insights : List Insight) (t : InsightType) : Bool :=
  insights.any (fun i => i.type_ == t)

/-! ## Persistent store (`src/storage/manager.ts`)

The `StorageManager` wraps a better-sqlite3 database.  Its tables are
modelled as in-memory lists and each statement by its SQLite
semantics.  One point matters for the claims: `createTables` declares
`FOREIGN KEY (prompt_id) REFERENCES prompts(id)` on `responses`, and
better-sqlite3 ships SQLite compiled with
`SQLITE_DEFAULT_FOREIGN_KEYS=1`, so foreign-key enforcement is ON by
default for every connection — no `PRAGMA foreign_keys = ON` is
needed, and an insert whose `prompt_id` references no prompt row
throws `FOREIGN KEY constraint failed`.  Primary-key uniqueness, that
foreign key, and the CHECK constraint on `prompts.complexity` are all
modelled. -/

/-- A row of the `prompts` table. -/
structure PromptRow where
  id : String
  content : String
  context : Option String
  conversationId : Option String
  qualityScore : Option ℚ
  complexity : Option String
  techniqueUsed : Option String
deriving DecidableEq, Repr

/-- A row of the `responses` table. -/
structure ResponseRow where
  id : String
  promptId : String
  content : String
  tokensUsed : Option ℤ
  userRating : Option ℤ
deriving DecidableEq, Repr

/-- The database state owned by `StorageManager`. -/
structure Storage where
  prompts : List PromptRow
  responses : List ResponseRow
deriving DecidableEq, Repr

/-- Errors SQLite can raise on the modelled statements. -/
inductive StoreError
  | primaryKeyViolation
  | foreignKeyViolation
  | checkViolation
deriving DecidableEq, Repr

/-- The input of `savePrompt`: `Omit<PromptData, 'id' | 'timestamp'>`. -/
structure PromptInput where
  content : String
  context : Option String
  conversationId : Option String
  qualityScore : Option ℚ
  complexity : Option String
  techniqueUsed : Option String
deriving DecidableEq, Repr

/-- The input of `saveResponse`: `Omit<ResponseData, 'id' | 'timestamp'>`. -/
structure ResponseInput where
  promptId : String
  content : String
  tokensUsed : Option ℤ
  userRating : Option ℤ
deriving DecidableEq, Repr

/-- JS `v || null` on an optional string: `undefined`, `null` and the
empty string are falsy and become null. -/
def jsOrNullStr (o : Option String) : Option String :=
  match o with
  | none => none
  | some s => if s = "" then none else some s

/-- JS `v || null` on an optional number: `undefined`, `null` and `0`
are falsy and become null. -/
def jsOrNullNum (o : Option ℚ) : Option ℚ :=
  match o with
  | none => none
  | some v => if v = 0 then none else some v

/-- JS `v || null` on an optional integer. -/
def jsOrNullInt (o : Option ℤ) : Option ℤ :=
  match o with
  | none => none
  | some v => if v = 0 then none else some v

/-- The `prompts.complexity` CHECK constraint of `createTables`. -/
def complexityAllowed (c : Option String) : Bool :=
  match c with
  | none => true
  | some s => s == "simple" || s == "moderate" || s == "complex"

/-- Source method `StorageManager.savePrompt`.  `freshId` is the `uuidv4()` draw; the
INSERT fails only on a constraint violation (duplicate primary key, or
an invalid `complexity` value reaching the CHECK constraint).  No
content validation of any kind is performed. -/
def savePrompt (freshId : String) (prompt : PromptInput) (st : Storage) :
    Except StoreError (String × Storage) :=
  if st.prompts.any (fun r => r.id == freshId) then
    .error .primaryKeyViolation
  else
    let complexity := jsOrNullStr prompt.complexity
    if !complexityAllowed complexity then
      .error .checkViolation
    else
      .ok (freshId,
        { st with
          prompts := st.prompts ++
            [{ id := freshId
               content := prompt.content
               context := jsOrNullStr prompt.context
               conversationId := jsOrNullStr prompt.conversationId
               qualityScore := jsOrNullNum prompt.qualityScore
               complexity := complexity
               techniqueUsed := jsOrNullStr prompt.techniqueUsed }] })

/-- Source method `StorageManager.saveResponse`.  `freshId` is the `uuidv4()` draw.
The declared foreign key on `prompt_id` IS enforced: better-sqlite3
compiles SQLite with `SQLITE_DEFAULT_FOREIGN_KEYS=1`, so the INSERT
throws `FOREIGN KEY constraint failed` when no prompt with that id
exists and no row is inserted; an error return models the statement
throwing with the database untouched. -/
def saveResponse (freshId : String) (response : ResponseInput) (st : Storage) :
    Except StoreError (String × Storage) :=
  if st.responses.any (fun r => r.id == freshId) then
    .error .primaryKeyViolation
  else if !st.prompts.any (fun r => r.id == response.promptId) then
    .error .foreignKeyViolation
  else
    .ok (freshId,
      { st with
        responses := st.responses ++
          [{ id := freshId
             promptId := response.promptId
             content := response.content
             tokensUsed := jsOrNullInt response.tokensUsed
             userRating := jsOrNullInt response.userRating }] })

/-- Source method `StorageManager.updatePromptAnalysis`: a plain
`UPDATE prompts SET ... WHERE id = ?`.  SQLite updates every matching
row (zero rows is not an error); the CHECK constraint on `complexity`
fires only on rows actually updated. -/
def updatePromptAnalysis (promptId : String) (qualityScore : ℚ)
    (complexity : String) (techniqueUsed : String) (st : Storage) :
    Except StoreError Storage :=
  if st.prompts.any (fun r => r.id == promptId) &&
      !complexityAllowed (some complexity) then
    .error .checkViolation
  else
    .ok { st with
      prompts := st.prompts.map (fun r =>
        if r.id == promptId then
          { r with
            qualityScore := some qualityScore
            complexity := some complexity
            techniqueUsed := some techniqueUsed }
        else r) }

/-! ## Helper lemmas -/

lemma clamp0to10_nonneg (q : ℚ) : 0 ≤ clamp0to10 q := by
  unfold clamp0to10
  split_ifs with h1 h2
  · exact le_refl 0
  · norm_num
  · exact le_of_not_lt h1

lemma clamp0to10_le_ten (q : ℚ) : clamp0to10 q ≤ 10 := by
  unfold clamp0to10
  split_ifs with h1 h2
  · norm_num
  · exact le_refl 10
  · exact le_of_not_lt h2

lemma clamp0to10_decimal (m : ℤ) :
    ∃ k : ℤ, 0 ≤ k ∧ k ≤ 100 ∧ clamp0to10 ((m : ℚ) / 10) = (k : ℚ) / 10 := by
  unfold clamp0to10
  split_ifs with h1 h2
  · exact ⟨0, le_refl 0, by norm_num, by norm_num⟩
  · exact ⟨100, by norm_num, le_refl 100, by norm_num⟩
  · refine ⟨m, ?_, ?_, rfl⟩
    · have h1' : (0 : ℚ) ≤ (m : ℚ) / 10 := le_of_not_lt h1
      have h1'' : (0 : ℚ) * 10 ≤ (m : ℚ) :=
        (le_div_iff₀ (by norm_num : (0 : ℚ) < 10)).mp h1'
      have : (0 : ℚ) ≤ (m : ℚ) := by linarith
      exact_mod_cast this
    · have h2' : (m : ℚ) / 10 ≤ 10 := le_of_not_lt h2
      have h2'' : (m : ℚ) ≤ 10 * 10 :=
        (div_le_iff₀ (by norm_num : (0 : ℚ) < 10)).mp h2'
      have : (m : ℚ) ≤ 100 := by linarith
      exact_mod_cast this

lemma calculateQualityScore_bounds (st : PromptStructure) (issues : List Issue) :
    0 ≤ calculateQualityScore st issues ∧ calculateQualityScore st issues ≤ 10 ∧
    ∃ k : ℤ, 0 ≤ k ∧ k ≤ 100 ∧ calculateQualityScore st issues = (k : ℚ) / 10 := by
  unfold calculateQualityScore
  exact ⟨clamp0to10_nonneg _, clamp0to10_le_ten _, clamp0to10_decimal _⟩

lemma splitRunsAux_length_pos (p : Char → Bool) (cur : List Char) (inSep : Bool)
    (l : List Char) : 1 ≤ (splitRunsAux p cur inSep l).length := by
  induction l generalizing cur inSep with
  | nil => simp [splitRunsAux]
  | cons c rest ih =>
    unfold splitRunsAux
    split_ifs with h1 h2
    · exact ih _ _
    · simp
    · exact ih _ _

lemma wordsJS_length_pos (s : String) : 1 ≤ (wordsJS s).length :=
  splitRunsAux_length_pos _ _ _ _

/-! ## Claim theorems: analysis engine -/

/-- C6: for every input string the `qualityScore` returned by
`analyzePrompt` lies in the closed interval [0, 10] and is a one-decimal
value (an integer number of tenths). -/
theorem qualityScore_bounded_one_decimal (s : String) :
    0 ≤ (analyzePrompt s).qualityScore ∧ (analyzePrompt s).qualityScore ≤ 10 ∧
    ∃ k : ℤ, 0 ≤ k ∧ k ≤ 100 ∧ (analyzePrompt s).qualityScore = (k : ℚ) / 10 := by
  have h : (analyzePrompt s).qualityScore =
      calculateQualityScore (analyzeStructure s) (detectIssues s (analyzeStructure s)) := rfl
  rw [h]
  exact calculateQualityScore_bounds _ _

/-- C8: `selectTechnique` agrees with the spec's case table for every
complexity tier, every combination of the four structural signals, and
every clarity score. -/
theorem selectTechnique_matches_spec_table (c : Complexity)
    (hc he hcon hout : Bool) (q : ℚ) :
    selectTechnique c ⟨hc, he, hcon, hout, q⟩ = specTechniqueTable c he hc hcon hout := by
  cases c <;> cases hc <;> cases he <;> cases hcon <;> cases hout <;> rfl

/-- C9: on the input `"fix this"`, `analyzePrompt` reports a
`too_broad` issue of severity `high`, `hasContext = false`, complexity
`simple`, and a quality score of at most 6.5 (it is exactly 6.1). -/
theorem analyzePrompt_fix_this_scenario :
    ({ type_ := .too_broad, severity := .high } : Issue) ∈ (analyzePrompt "fix this").issues ∧
    (analyzePrompt "fix this").structure_.hasContext = false ∧
    (analyzePrompt "fix this").complexity = .simple ∧
    (analyzePrompt "fix this").qualityScore ≤ 13 / 2 := by
  have hi : (analyzePrompt "fix this").issues =
      [{ type_ := .too_broad, severity := .high }] := by with_unfolding_all rfl
  have hq : (analyzePrompt "fix this").qualityScore = 61 / 10 := by with_unfolding_all rfl
  refine ⟨?_, by with_unfolding_all rfl, by with_unfolding_all rfl, ?_⟩
  · rw [hi]
    exact List.mem_singleton_self _
  · rw [hq]
    norm_num

lemma complexityScoreParts_mono {w1 w2 : ℕ} (h : w1 ≤ w2) (ctx ex con conn tech : Bool) :
    complexityScoreParts w1 ctx ex con conn tech ≤
      complexityScoreParts w2 ctx ex con conn tech := by
  unfold complexityScoreParts
  have h1 : (if 100 < w1 then 1 else 0) ≤ (if 100 < w2 then (1 : ℕ) else 0) := by
    split_ifs <;> omega
  have h2 : (if 200 < w1 then 1 else 0) ≤ (if 200 < w2 then (1 : ℕ) else 0) := by
    split_ifs <;> omega
  omega

lemma tierOfScore_mono {s1 s2 : ℕ} (h : s1 ≤ s2) :
    (tierOfScore s1).rank ≤ (tierOfScore s2).rank := by
  unfold tierOfScore
  split_ifs <;> simp [Complexity.rank] <;> omega

/-- C7: the complexity classification is monotone in token count when
the structural signals and the connective / technical-content checks
are held fixed: a prompt with at least as many tokens never lands in a
strictly lower tier. -/
theorem determineComplexity_mono_in_tokens (p1 p2 : String) (st : PromptStructure)
    (hw : (wordsJS p1).length ≤ (wordsJS p2).length)
    (hconn : connectiveCheck p1 = connectiveCheck p2)
    (htech : detectTechnicalContent p1 = detectTechnicalContent p2) :
    (determineComplexity p1 st).rank ≤ (determineComplexity p2 st).rank := by
  unfold determineComplexity
  rw [hconn, htech]
  exact tierOfScore_mono (complexityScoreParts_mono hw _ _ _ _ _)

/-- Witness for C7 at the concrete pair `"x"`, `"x y"`. -/
theorem determineComplexity_mono_in_tokens_witness :
    (wordsJS "x").length ≤ (wordsJS "x y").length ∧
    (determineComplexity "x" ⟨false, false, false, false, 0⟩).rank ≤
      (determineComplexity "x y" ⟨false, false, false, false, 0⟩).rank :=
  ⟨by decide,
   determineComplexity_mono_in_tokens "x" "x y" ⟨false, false, false, false, 0⟩
     (by decide) (by decide) (by decide)⟩

/-- C5 counterexample: on the empty string the sentence split yields
zero sentences, yet the code does NOT treat the
average-tokens-per-sentence value as the token count — the unguarded
division produces +Infinity, the long-sentence penalty fires, and the
clarity score (7) differs from the value the spec's guard would give
(8). -/
theorem clarity_zero_sentences_counterexample :
    sentencesJS "" = [] ∧
    calculateClarityScore "" (wordsJS "") (sentencesJS "") = 7 ∧
    calculateClarityScoreSpecGuard "" (wordsJS "") (sentencesJS "") = 8 ∧
    calculateClarityScore "" (wordsJS "") (sentencesJS "") ≠
      calculateClarityScoreSpecGuard "" (wordsJS "") (sentencesJS "") := by
  have ha : calculateClarityScore "" (wordsJS "") (sentencesJS "") = 7 := by
    with_unfolding_all rfl
  have hb : calculateClarityScoreSpecGuard "" (wordsJS "") (sentencesJS "") = 8 := by
    with_unfolding_all rfl
  refine ⟨rfl, ha, hb, ?_⟩
  rw [ha, hb]
  norm_num

/-- C5 amended: when the sentence split yields zero sentences the word
list is still nonempty, so the JS division `words.length / 0` yields
+Infinity and the `> 30` penalty always fires; the computation is still
total and the clarity score stays within [0, 10]. -/
theorem clarity_zero_sentences_total (s : String) (h : sentencesJS s = []) :
    1 ≤ (wordsJS s).length ∧
    avgGtThirty (wordsJS s).length (sentencesJS s).length = true ∧
    0 ≤ calculateClarityScore s (wordsJS s) (sentencesJS s) ∧
    calculateClarityScore s (wordsJS s) (sentencesJS s) ≤ 10 := by
  have hw : 1 ≤ (wordsJS s).length := wordsJS_length_pos s
  refine ⟨hw, ?_, ?_, ?_⟩
  · rw [h]
    show decide ((wordsJS s).length ≠ 0) = true
    simp only [decide_eq_true_eq]
    omega
  · exact clamp0to10_nonneg _
  · exact clamp0to10_le_ten _

/-- Witness for C5 amended at the empty string. -/
theorem clarity_zero_sentences_total_witness :
    1 ≤ (wordsJS "").length ∧
    avgGtThirty (wordsJS "").length (sentencesJS "").length = true ∧
    0 ≤ calculateClarityScore "" (wordsJS "") (sentencesJS "") ∧
    calculateClarityScore "" (wordsJS "") (sentencesJS "") ≤ 10 :=
  clarity_zero_sentences_total "" rfl

/-! ## Claim theorems: insight miner -/

/-- A 100-record window sitting exactly on the claimed threshold: the
most-recent 50 scored records average 5.0 and the preceding 50 average
5.5, so the recent mean is exactly 0.5 below the older mean. -/
def trendBoundaryWindow : List PromptQ :=
  List.replicate 50 ⟨some 5⟩ ++ List.replicate 50 ⟨some (11 / 2)⟩

set_option maxRecDepth 100000 in
/-- C1 counterexample: with 100 scored records whose recent mean is
exactly 0.5 below the older mean ("at least 0.5 below" holds), the
detector emits nothing — the code compares strictly
(`recentScore < olderScore - 0.5`), so the boundary case produces no
insight, contradicting the claim's "exactly when ... at least 0.5
below". -/
theorem quality_trend_boundary_counterexample :
    (trendBoundaryWindow.filter (fun p => p.qualityScore.isSome)).length = 100 ∧
    calculateAverageQuality
        ((trendBoundaryWindow.filter (fun p => p.qualityScore.isSome)).take 50) =
      calculateAverageQuality
          (((trendBoundaryWindow.filter (fun p => p.qualityScore.isSome)).drop 50).take 50) -
        1 / 2 ∧
    analyzeQualityTrends trendBoundaryWindow = [] := by
  refine ⟨by decide, by with_unfolding_all rfl, by with_unfolding_all rfl⟩

/-- C1 amended: the detector is silent below 10 scored records; with at
least 10 it emits `quality_decline` (severity `warning`) exactly when
the recent mean is STRICTLY more than 0.5 below the older mean,
`quality_improvement` (severity `info`) exactly when it is strictly
more than 0.5 above, and never more than one insight per pass. -/
theorem quality_trend_detector_thresholds (prompts qp : List PromptQ) (r o : ℚ)
    (hqp : qp = prompts.filter (fun p => p.qualityScore.isSome))
    (hr : r = calculateAverageQuality (qp.take 50))
    (ho : o = calculateAverageQuality ((qp.drop 50).take 50)) :
    (qp.length < 10 → analyzeQualityTrends prompts = []) ∧
    (10 ≤ qp.length →
      (emitsType (analyzeQualityTrends prompts) .quality_decline = true ↔ r < o - 1 / 2) ∧
      (emitsType (analyzeQualityTrends prompts) .quality_improvement = true ↔ o + 1 / 2 < r) ∧
      (analyzeQualityTrends prompts).length ≤ 1) := by
  subst hqp hr ho
  simp only [analyzeQualityTrends]
  constructor
  · intro h
    rw [if_pos h]
  · intro h
    rw [if_neg (by omega)]
    split_ifs with h2 h3
    · refine ⟨iff_of_true (by simp [emitsType]) h2, iff_of_false (by simp [emitsType]) ?_, by simp⟩
      intro hlt
      linarith
    · exact ⟨iff_of_false (by simp [emitsType]) h2, iff_of_true (by simp [emitsType]) h3, by simp⟩
    · exact ⟨iff_of_false (by simp [emitsType]) h2, iff_of_false (by simp [emitsType]) h3, by simp⟩

/-- Witness for C1 amended: a history of 10 scored records with mean 5
(older cohort empty, mean 0) emits a `quality_improvement` insight. -/
theorem quality_trend_detector_thresholds_witness :
    emitsType (analyzeQualityTrends (List.replicate 10 (⟨some 5⟩ : PromptQ)))
      .quality_improvement = true := by
  have hlen : 10 ≤ ((List.replicate 10 (⟨some 5⟩ : PromptQ)).filter
      (fun p => p.qualityScore.isSome)).length := by decide
  have h := (quality_trend_detector_thresholds (List.replicate 10 ⟨some 5⟩)
    _ _ _ rfl rfl rfl).2 hlen
  exact h.2.1.mpr (of_decide_eq_true (by with_unfolding_all rfl))

/-- C10: with between 10 and 50 scored records the older cohort
(records 51–100) is empty, its mean is taken to be 0, the recent cohort
is the whole scored list, and the detector emits `quality_improvement`
exactly when the mean of the scored records exceeds 0.5. -/
theorem quality_trend_small_history (prompts qp : List PromptQ) (r : ℚ)
    (hqp : qp = prompts.filter (fun p => p.qualityScore.isSome))
    (hr : r = calculateAverageQuality qp)
    (hlow : 10 ≤ qp.length) (hhigh : qp.length ≤ 50) :
    (qp.drop 50).take 50 = [] ∧
    calculateAverageQuality ((qp.drop 50).take 50) = 0 ∧
    qp.take 50 = qp ∧
    (emitsType (analyzeQualityTrends prompts) .quality_improvement = true ↔ 1 / 2 < r) := by
  subst hqp hr
  have hdrop : (prompts.filter (fun p => p.qualityScore.isSome)).drop 50 = [] := by
    rw [List.drop_eq_nil_iff]
    omega
  have htake : (prompts.filter (fun p => p.qualityScore.isSome)).take 50 =
      prompts.filter (fun p => p.qualityScore.isSome) := by
    apply List.take_of_length_le
    omega
  refine ⟨by rw [hdrop, List.take_nil], ?_, htake, ?_⟩
  case _ =>
    rw [hdrop, List.take_nil]
    with_unfolding_all rfl
  simp only [analyzeQualityTrends]
  rw [if_neg (by omega), hdrop, List.take_nil, htake]
  split_ifs with h2 h3
  · refine iff_of_false (by simp [emitsType]) ?_
    have : calculateAverageQuality ([] : List PromptQ) = 0 := rfl
    rw [this] at h2
    intro hlt
    linarith
  · refine iff_of_true (by simp [emitsType]) ?_
    have : calculateAverageQuality ([] : List PromptQ) = 0 := rfl
    rw [this] at h3
    linarith
  · refine iff_of_false (by simp [emitsType]) ?_
    have : calculateAverageQuality ([] : List PromptQ) = 0 := rfl
    rw [this] at h3
    intro hlt
    exact h3 (by linarith)

/-- Witness for C10: 12 scored records with score 3 (mean 3 > 0.5)
emit a `quality_improvement` insight despite there being no older data. -/
theorem quality_trend_small_history_witness :
    emitsType (analyzeQualityTrends (List.replicate 12 (⟨some 3⟩ : PromptQ)))
      .quality_improvement = true := by
  have h := quality_trend_small_history (List.replicate 12 ⟨some 3⟩) _ _ rfl rfl
    (by decide) (by decide)
  exact h.2.2.2.mpr (of_decide_eq_true (by with_unfolding_all rfl))

/-! ## Claim theorems: persistent store -/

lemma map_if_id {α : Type} (l : List α) (p : α → Bool) (f : α → α)
    (h : l.any p = false) : l.map (fun r => if p r then f r else r) = l := by
  induction l with
  | nil => rfl
  | cons x xs ih =>
    simp only [List.any_cons, Bool.or_eq_false_iff] at h
    simp only [List.map_cons, h.1, Bool.false_eq_true, if_false, ih h.2]


/-- C2: for every response whose `promptId` references no existing
prompt row, `saveResponse` fails with the foreign-key error and no row
is inserted — better-sqlite3's bundled SQLite enforces the declared
foreign key by default, the INSERT throws, and an error return leaves
the store untouched (the only way a row is added is through the `.ok`
state). -/
theorem saveResponse_orphan_rejected (freshId : String) (response : ResponseInput)
    (st : Storage)
    (hfresh : st.responses.any (fun r => r.id == freshId) = false)
    (horphan : st.prompts.any (fun r => r.id == response.promptId) = false) :
    saveResponse freshId response st = .error .foreignKeyViolation := by
  unfold saveResponse
  rw [hfresh, horphan]
  rfl

/-- Witness for C2: the orphan insert on an empty database. -/
theorem saveResponse_orphan_rejected_witness :
    saveResponse "r1" ⟨"nonexistent-prompt", "hello", none, none⟩ (Storage.mk [] []) =
      .error .foreignKeyViolation :=
  saveResponse_orphan_rejected "r1" ⟨"nonexistent-prompt", "hello", none, none⟩
    (Storage.mk [] []) rfl rfl

/-- C3 counterexample: `savePrompt` with empty content does not fail
and does insert a row — there is no content validation anywhere on the
write path, so the empty-content record lands in the table and the
fresh id is returned. -/
theorem savePrompt_empty_content_inserted :
    savePrompt "uuid-1" ⟨"", none, none, none, none, none⟩ (Storage.mk [] []) =
      .ok ("uuid-1", Storage.mk
        [{ id := "uuid-1", content := "", context := none, conversationId := none,
           qualityScore := none, complexity := none, techniqueUsed := none }] []) := by
  exact rfl

/-- C3 amended: `savePrompt` performs no validation of `content`
whatsoever — for ANY content, including the empty string, given a
fresh id (the `uuidv4()` draw, not colliding with an existing row id)
it succeeds, appends exactly one row carrying that id, that content
and null analysis fields, and returns the id. -/
theorem savePrompt_no_validation (freshId content : String)
    (ctx conv : Option String) (st : Storage)
    (hfresh : st.prompts.any (fun r => r.id == freshId) = false) :
    savePrompt freshId ⟨content, ctx, conv, none, none, none⟩ st =
      .ok (freshId,
        { st with prompts := st.prompts ++
            [{ id := freshId, content := content, context := jsOrNullStr ctx,
               conversationId := jsOrNullStr conv, qualityScore := none,
               complexity := none, techniqueUsed := none }] }) := by
  unfold savePrompt
  rw [hfresh]
  rfl

/-- Witness for C3 amended at content `"hello"` on the empty store. -/
theorem savePrompt_no_validation_witness :
    savePrompt "u1" ⟨"hello", none, none, none, none, none⟩ (Storage.mk [] []) =
      .ok ("u1", Storage.mk
        [{ id := "u1", content := "hello", context := none, conversationId := none,
           qualityScore := none, complexity := none, techniqueUsed := none }] []) :=
  savePrompt_no_validation "u1" "hello" none none (Storage.mk [] []) rfl

/-- C4 counterexample: `updatePromptAnalysis` on an id absent from the
store does NOT fail with any error — the bare SQL UPDATE matches zero
rows and returns success, leaving the store unchanged. -/
theorem updatePromptAnalysis_unknown_id_succeeds :
    updatePromptAnalysis "ghost" 5 "simple" "Zero-Shot" (Storage.mk [] []) =
      .ok (Storage.mk [] []) := by
  exact rfl

/-- C4 amended: `updateAnalysis` with an unknown id is a silent no-op:
it returns successfully (no `NotFoundError`), the store is unchanged,
and in particular no record is created. -/
theorem updatePromptAnalysis_unknown_id_noop (promptId : String) (q : ℚ)
    (c t : String) (st : Storage)
    (habsent : st.prompts.any (fun r => r.id == promptId) = false) :
    updatePromptAnalysis promptId q c t st = .ok st := by
  unfold updatePromptAnalysis
  rw [habsent]
  simp only [Bool.false_and, Bool.false_eq_true, if_false]
  rw [map_if_id _ _ _ habsent]

/-- Witness for C4 amended on a store holding one unrelated prompt. -/
theorem updatePromptAnalysis_unknown_id_noop_witness :
    updatePromptAnalysis "ghost2" 7 "moderate" "Few-Shot"
      (Storage.mk [PromptRow.mk "p1" "c" none none none none none] []) =
    .ok (Storage.mk [PromptRow.mk "p1" "c" none none none none none] []) :=
  updatePromptAnalysis_unknown_id_noop "ghost2" 7 "moderate" "Few-Shot" _ rfl

/-- Witness for C6 at the empty string. -/
theorem qualityScore_bounded_one_decimal_witness :
    0 ≤ (analyzePrompt "").qualityScore ∧ (analyzePrompt "").qualityScore ≤ 10 ∧
    ∃ k : ℤ, 0 ≤ k ∧ k ≤ 100 ∧ (analyzePrompt "").qualityScore = (k : ℚ) / 10 :=
  qualityScore_bounded_one_decimal ""

/-- Witness for C8 at the complex tier with constraints and context. -/
theorem selectTechnique_matches_spec_table_witness :
    selectTechnique .complex ⟨true, false, true, false, 0⟩ =
      specTechniqueTable .complex false true true false :=
  selectTechnique_matches_spec_table .complex true false true false 0
